import Mathlib

/-!
Verification of the reminder scheduling and escalation engine of the
`reminder-bot` repository, against its natural-language specification.

The definitions below are a shallow embedding of the Python source:

* `ReminderStatus`, `Reminder` embed `models/entities.py` (the `schedule_time`
  string `"HH:MM"` is embedded as its parsed pair `scheduleHH`/`scheduleMM`;
  timestamps are seconds since an arbitrary epoch, as `Int`).
* `JobKey` embeds the two APScheduler job-id string formats used by
  `utils/scheduler.py`: `primary i` stands for the string `reminder_<i>` and
  `followUp i ts` for `notification_<i>_<ts>`.  The id strings are in
  bijection with these constructors (decimal numerals contain no underscore),
  and the source's prefix test `id.startswith("notification_<i>_")` holds
  exactly for the `followUp i _` keys.
* The repository operations of `repositories/reminder_repository.py` act on a
  `List Reminder` store (the `reminders` table; `id` is the primary key).
* `send_reminder_job`, `schedule_reminder`, `schedule_next_notification`,
  `cancel_reminder`, `recover_one`, `recover_jobs_from_database` embed
  `utils/scheduler.py`; `calculate_next_notification_interval` embeds
  `services/notification_service.py`; `confirm_reminder`, `snooze_reminder`,
  `delete_reminder`, `create_reminder`, `calculate_next_notification_time`
  embed `services/reminder_service.py`.
* Transport (Telegram) effects are modelled by a boolean success parameter
  and by the `promptsDelivered` / `warningsDispatched` counters of
  `SystemState`; the local timezone of `config.py` is modelled as a fixed
  offset `tz` in seconds added to UTC.
-/

namespace ReminderBot

/-- Lifecycle status of a reminder (`ReminderStatus` in `models/entities.py`). -/
inductive ReminderStatus where
  | active
  | completed
  | suspended
  | cancelled
  | waitingConfirmation
  deriving DecidableEq, Repr

/-- One row of the `reminders` table (`ReminderEntity` in `models/entities.py`).
Times are UTC seconds; `scheduleHH`/`scheduleMM` are the parsed `"HH:MM"`. -/
structure Reminder where
  id : Nat
  userId : Nat
  chatId : Nat
  text : String
  scheduleHH : Nat
  scheduleMM : Nat
  intervalDays : Nat
  status : ReminderStatus
  nextNotification : Int
  notificationCount : Nat
  maxNotifications : Nat
  notificationIntervalMinutes : Nat
  lastMessageId : Option Nat
  createdAt : Int
  updatedAt : Int
  deriving DecidableEq, Repr

/-- APScheduler job id, structured: `primary i` is the string `reminder_<i>`,
`followUp i ts` is `notification_<i>_<ts>` (`ts` = epoch seconds of the due
time, as built in `schedule_next_notification`). -/
inductive JobKey where
  | primary (reminderId : Nat)
  | followUp (reminderId : Nat) (epochSeconds : Int)
  deriving DecidableEq, Repr

/-- An armed one-shot job in the scheduler's in-memory job store. -/
structure Job where
  key : JobKey
  reminderId : Nat
  runDate : Int
  deriving DecidableEq, Repr

/-- Whether a job key matches the source's prefix test
`job.id.startswith(f"notification_{rid}_")` used when cancelling follow-ups. -/
def isFollowUpFor (rid : Nat) (k : JobKey) : Bool :=
  match k with
  | JobKey.followUp j _ => j == rid
  | JobKey.primary _ => false

/-- The state touched by the engine: the reminder store, the scheduler's job
set, and counters of transport dispatches (delivered reminder prompts and
escalation-warning sends). -/
structure SystemState where
  reminders : List Reminder
  jobs : List Job
  promptsDelivered : Nat
  warningsDispatched : Nat
  deriving DecidableEq, Repr

/-! ### Repository operations (`repositories/reminder_repository.py`) -/

/-- Embeds `get_by_id`: select the row with the given primary key. -/
def getById (store : List Reminder) (rid : Nat) : Option Reminder :=
  store.find? (fun r => r.id == rid)

/-- Update the row with the given id (the `id` column is the primary key, so
SQL `WHERE id = rid` updates exactly the matching rows). -/
def updateById (store : List Reminder) (rid : Nat) (f : Reminder → Reminder) :
    List Reminder :=
  store.map (fun r => if r.id == rid then f r else r)

/-- Embeds `update_status`: set `status` and bump `updated_at`. -/
def update_status (store : List Reminder) (rid : Nat) (s : ReminderStatus)
    (now : Int) : List Reminder :=
  updateById store rid (fun r => { r with status := s, updatedAt := now })

/-- Embeds `update_message_id`: set `last_message_id` and bump `updated_at`. -/
def update_message_id (store : List Reminder) (rid : Nat) (msgId : Nat)
    (now : Int) : List Reminder :=
  updateById store rid (fun r => { r with lastMessageId := some msgId, updatedAt := now })

/-- Embeds `increment_notification_count`: add one to `notification_count` and bump
`updated_at`. -/
def increment_notification_count (store : List Reminder) (rid : Nat)
    (now : Int) : List Reminder :=
  updateById store rid
    (fun r => { r with notificationCount := r.notificationCount + 1, updatedAt := now })

/-- Embeds `update_next_notification`: set `next_notification`, bump `updated_at`,
and report whether a row matched (`rowcount > 0`). -/
def update_next_notification (store : List Reminder) (rid : Nat) (t : Int)
    (now : Int) : List Reminder × Bool :=
  (updateById store rid (fun r => { r with nextNotification := t, updatedAt := now }),
   store.any (fun r => r.id == rid))

/-! ### Job scheduler operations (`utils/scheduler.py`) -/

/-- Embeds `schedule_reminder`: arm the primary job `reminder_<rid>` at `t` with
`replace_existing=True` (any job with the same id is replaced). -/
def schedule_reminder (jobs : List Job) (rid : Nat) (t : Int) : List Job :=
  jobs.filter (fun j => !(j.key == JobKey.primary rid)) ++
    [{ key := JobKey.primary rid, reminderId := rid, runDate := t }]

/-- Embeds `reschedule_reminder`: remove the primary job if present, then add it at
the new time — the same job-set effect as `schedule_reminder`. -/
def reschedule_reminder (jobs : List Job) (rid : Nat) (t : Int) : List Job :=
  schedule_reminder jobs rid t

/-- Embeds `cancel_reminder`: remove the primary job `reminder_<rid>` only, and
return whether it was armed.  Follow-up jobs are not touched here. -/
def cancel_reminder (jobs : List Job) (rid : Nat) : List Job × Bool :=
  (jobs.filter (fun j => !(j.key == JobKey.primary rid)),
   jobs.any (fun j => j.key == JobKey.primary rid))

/-- The inline loop in `confirm_reminder` that removes every job whose id
starts with `notification_<rid>_`. -/
def cancel_followups (jobs : List Job) (rid : Nat) : List Job :=
  jobs.filter (fun j => !(isFollowUpFor rid j.key))

/-- Embeds `schedule_next_notification`: arm a follow-up keyed
`notification_<rid>_<t>` (no `replace_existing`; a conflicting id raises,
which the surrounding `try` swallows, leaving the job set unchanged). -/
def schedule_next_notification (jobs : List Job) (rid : Nat) (t : Int) :
    List Job :=
  if jobs.any (fun j => j.key == JobKey.followUp rid t) then jobs
  else jobs ++ [{ key := JobKey.followUp rid t, reminderId := rid, runDate := t }]

/-! ### Escalation policy (`services/notification_service.py`) -/

/-- The `escalation_multipliers` list of
`calculate_next_notification_interval`. -/
def escalationMultipliers : List Nat := [1, 1, 2, 3, 5, 6]

/-- Embeds `calculate_next_notification_interval(current_count, base_interval)`:
`min(base_interval * multipliers[min(current_count, 5)], 30)`. -/
def calculate_next_notification_interval (currentCount baseInterval : Nat) : Nat :=
  let idx := min currentCount (escalationMultipliers.length - 1)
  let m := escalationMultipliers.getD idx 1
  min (baseInterval * m) 30

/-! ### Next-notification time (`services/reminder_service.py`) -/

/-- Embeds `_calculate_next_notification_time(schedule_time, interval_days)`:
today's local occurrence of `HH:MM` (seconds zeroed); if it is not strictly
in the local future, advance by `interval_days if interval_days > 0 else 1`
days; convert back to UTC.  `tz` is the configured timezone's offset from
UTC in seconds, `now` the current UTC time. -/
def calculate_next_notification_time (tz now : Int) (hh mm : Nat)
    (intervalDays : Nat) : Int :=
  let nowLocal := now + tz
  let dayStart := nowLocal - nowLocal % 86400
  let cand := dayStart + ((hh : Int) * 3600 + (mm : Int) * 60)
  let next :=
    if cand ≤ nowLocal then
      cand + 86400 * (if 0 < intervalDays then (intervalDays : Int) else 1)
    else cand
  next - tz

/-- The first occurrence of local `HH:MM` at or after `now`, i.e. "the
`scheduleTime` occurrence on the nearest day ≥ now" in the words of the
specification (stated for comparison with the source computation). -/
def earliestOccurrenceUtc (tz now : Int) (hh mm : Nat) : Int :=
  let nowLocal := now + tz
  let cand := nowLocal - nowLocal % 86400 + ((hh : Int) * 3600 + (mm : Int) * 60)
  (if cand < nowLocal then cand + 86400 else cand) - tz

/-! ### The fire handler (`_send_reminder_job` in `utils/scheduler.py`) -/

/-- Embeds `_send_reminder_job(reminder_id)` fired at UTC time `now`.  `sendOk`
models whether the Telegram send of the prompt succeeds, `msgId` the id of
the sent message.  The handler re-reads the reminder; non-`Active` or missing
rows are dropped.  On successful send, `send_reminder_notification` stores
the new `last_message_id`, the count is incremented, and the branch on the
pre-increment DTO count either arms one follow-up at
`now + interval minutes` or dispatches the escalation warning and suspends. -/
def send_reminder_job (now : Int) (sendOk : Bool) (msgId : Nat)
    (st : SystemState) (rid : Nat) : SystemState :=
  match getById st.reminders rid with
  | none => st
  | some e =>
    if e.status = ReminderStatus.active then
      if sendOk then
        let store1 := update_message_id st.reminders rid msgId now
        let store2 := increment_notification_count store1 rid now
        if e.notificationCount < e.maxNotifications - 1 then
          let interval := calculate_next_notification_interval
            e.notificationCount e.notificationIntervalMinutes
          let nextTime := now + 60 * (interval : Int)
          { reminders := store2,
            jobs := schedule_next_notification st.jobs rid nextTime,
            promptsDelivered := st.promptsDelivered + 1,
            warningsDispatched := st.warningsDispatched }
        else
          { reminders := update_status store2 rid ReminderStatus.suspended now,
            jobs := st.jobs,
            promptsDelivered := st.promptsDelivered + 1,
            warningsDispatched := st.warningsDispatched + 1 }
      else st
    else st

/-- Runs `n` consecutive unconfirmed fires of reminder `rid`, the `k`-th fire
(0-based) executing at time `t0 + k` with a successful send. -/
def fireN (t0 : Int) (msgId : Nat) (rid : Nat) : Nat → SystemState → SystemState
  | 0, st => st
  | Nat.succ k, st => send_reminder_job (t0 + (k : Int)) true msgId (fireN t0 msgId rid k st) rid

/-! ### Service operations (`services/reminder_service.py`) -/

/-- Embeds `confirm_reminder(reminder_id, user_id, job_scheduler)`, with the job
scheduler supplied (as the callback handler does).  Missing row, non-owner,
or non-`Active` status yield `false` without mutation.  `interval_days = 0`:
set `status = Completed`.  Otherwise: cancel the primary job, remove each
job with id prefix `notification_<rid>_`, recompute `next_notification`,
reset `notification_count` to 0, clear `last_message_id`, persist, and
re-arm the primary job at the new time. -/
def confirm_reminder (tz now : Int) (st : SystemState) (rid uid : Nat) :
    SystemState × Bool :=
  match getById st.reminders rid with
  | none => (st, false)
  | some e =>
    if e.userId = uid then
      if e.status = ReminderStatus.active then
        if e.intervalDays = 0 then
          ({ st with reminders := update_status st.reminders rid ReminderStatus.completed now },
           true)
        else
          let jobs1 := (cancel_reminder st.jobs rid).1
          let jobs2 := cancel_followups jobs1 rid
          let next := calculate_next_notification_time tz now e.scheduleHH e.scheduleMM
            e.intervalDays
          let reminders' := updateById st.reminders rid (fun r =>
            { r with notificationCount := 0, nextNotification := next,
                     lastMessageId := none, updatedAt := now })
          ({ st with reminders := reminders',
                     jobs := schedule_reminder jobs2 rid next }, true)
      else (st, false)
    else (st, false)

/-- Embeds `snooze_reminder(reminder_id, minutes)`: set the stored
`next_notification` to `utcnow + minutes` (no owner or status check, no
scheduler interaction); success iff a row matched. -/
def snooze_reminder (now : Int) (st : SystemState) (rid : Nat)
    (minutes : Nat) : SystemState × Bool :=
  let upd := update_next_notification st.reminders rid (now + 60 * (minutes : Int)) now
  ({ st with reminders := upd.1 }, upd.2)

/-- Embeds `delete_reminder(reminder_id, user_id)`: owner-only removal of the row.
No scheduler interaction takes place anywhere on this path. -/
def delete_reminder (st : SystemState) (rid uid : Nat) : SystemState × Bool :=
  match getById st.reminders rid with
  | none => (st, false)
  | some e =>
    if e.userId = uid then
      ({ st with reminders := st.reminders.filter (fun r => !(r.id == rid)) }, true)
    else (st, false)

/-- The validated creation input (`ReminderCreateDTO` in `models/dtos.py`). -/
structure ReminderCreate where
  userId : Nat
  chatId : Nat
  text : String
  scheduleHH : Nat
  scheduleMM : Nat
  intervalDays : Nat
  notificationIntervalMinutes : Nat
  maxNotifications : Nat
  deriving DecidableEq, Repr

/-- The pydantic validation of `ReminderCreateDTO`: `HH:MM` a well-formed
time, `interval_days ∈ [0, 365]`, `notification_interval_minutes ∈ [1, 60]`,
`max_notifications ∈ [1, 50]`, non-empty text. -/
def ReminderCreate.valid (d : ReminderCreate) : Prop :=
  d.scheduleHH < 24 ∧ d.scheduleMM < 60 ∧ d.intervalDays ≤ 365 ∧
    1 ≤ d.notificationIntervalMinutes ∧ d.notificationIntervalMinutes ≤ 60 ∧
    1 ≤ d.maxNotifications ∧ d.maxNotifications ≤ 50 ∧ d.text ≠ ""

instance (d : ReminderCreate) : Decidable d.valid := by
  unfold ReminderCreate.valid; infer_instance

/-- Embeds `create_reminder(reminder_data)` at UTC time `now`, the store assigning
id `rid`: `reminder_create_dto_to_entity` sets `status = Active` and
`notification_count = 0`, then `next_notification` is computed by
`_calculate_next_notification_time`. -/
def create_reminder (tz now : Int) (rid : Nat) (d : ReminderCreate) : Reminder :=
  { id := rid, userId := d.userId, chatId := d.chatId, text := d.text,
    scheduleHH := d.scheduleHH, scheduleMM := d.scheduleMM,
    intervalDays := d.intervalDays,
    status := ReminderStatus.active,
    nextNotification := calculate_next_notification_time tz now d.scheduleHH
      d.scheduleMM d.intervalDays,
    notificationCount := 0,
    maxNotifications := d.maxNotifications,
    notificationIntervalMinutes := d.notificationIntervalMinutes,
    lastMessageId := none, createdAt := now, updatedAt := now }

/-! ### Recovery (`recover_jobs_from_database` in `utils/scheduler.py`) -/

/-- The per-reminder body of the recovery loop: future rows are re-armed at
their stored time; overdue rows are re-armed at `now + 30` seconds when
`int(overdue_seconds / 60) <= 60`, otherwise only a warning is logged. -/
def recover_one (now : Int) (jobs : List Job) (r : Reminder) : List Job :=
  if now < r.nextNotification then
    schedule_reminder jobs r.id r.nextNotification
  else
    let overdueMinutes := (now - r.nextNotification).toNat / 60
    if overdueMinutes ≤ 60 then
      reschedule_reminder jobs r.id (now + 30)
    else
      jobs

/-- The recovery pass: every `Active` row is processed in order;
`fails r.id = true` models the per-row `try`/`except` catching an exception
while recovering that row (the row contributes nothing, the loop continues). -/
def recover_jobs_from_database (now : Int) (fails : Nat → Bool)
    (jobs : List Job) (store : List Reminder) : List Job :=
  (store.filter (fun r => r.status == ReminderStatus.active)).foldl
    (fun js r => if fails r.id then js else recover_one now js r) jobs

/-! ### Helper lemmas -/

/-- Looking up an id in a store from which that id was filtered out finds
nothing. -/
theorem getById_filter_ne (store : List Reminder) (rid : Nat) :
    getById (store.filter (fun r => !(r.id == rid))) rid = none := by
  simp only [getById, List.find?_eq_none]
  intro r hr
  simp only [List.mem_filter, Bool.not_eq_eq_eq_not, Bool.not_true, beq_eq_false_iff_ne,
    ne_eq] at hr
  simp [hr.2]

/-- An id-preserving row update commutes with lookup of the updated id. -/
theorem getById_updateById (store : List Reminder) (rid : Nat)
    (f : Reminder → Reminder) (hf : ∀ r, (f r).id = r.id) :
    getById (updateById store rid f) rid = (getById store rid).map f := by
  induction store with
  | nil => rfl
  | cons a l ih =>
    by_cases h : a.id = rid
    · simp [getById, updateById, List.find?_cons, h, hf]
    · simpa [getById, updateById, List.find?_cons, h] using ih

/-- The fire handler drops a job whose reminder row is missing. -/
theorem send_reminder_job_of_missing (now : Int) (ok : Bool) (msg : Nat)
    (st : SystemState) (rid : Nat) (h : getById st.reminders rid = none) :
    send_reminder_job now ok msg st rid = st := by
  simp [send_reminder_job, h]

/-- The fire handler drops a job whose reminder row is no longer active. -/
theorem send_reminder_job_of_not_active (now : Int) (ok : Bool) (msg : Nat)
    (st : SystemState) (rid : Nat) (e : Reminder)
    (h : getById st.reminders rid = some e)
    (he : e.status ≠ ReminderStatus.active) :
    send_reminder_job now ok msg st rid = st := by
  simp [send_reminder_job, h, he]

/-- Monotonicity of the multiplier table lookup. -/
theorem escalationMultipliers_getD_mono (i j : Nat) (h1 : i ≤ j) (h2 : j ≤ 5) :
    escalationMultipliers.getD i 1 ≤ escalationMultipliers.getD j 1 := by
  interval_cases j <;> interval_cases i <;> decide

/-- The escalation delay is monotone in the attempt count. -/
theorem calculate_next_notification_interval_mono (b c₁ c₂ : Nat) (h : c₁ ≤ c₂) :
    calculate_next_notification_interval c₁ b ≤
      calculate_next_notification_interval c₂ b := by
  unfold calculate_next_notification_interval
  have hlen : escalationMultipliers.length - 1 = 5 := by decide
  rw [hlen]
  have hmono : escalationMultipliers.getD (min c₁ 5) 1 ≤
      escalationMultipliers.getD (min c₂ 5) 1 :=
    escalationMultipliers_getD_mono _ _ (by omega) (by omega)
  exact min_le_min (Nat.mul_le_mul_left b hmono) le_rfl

/-! ### Claim theorems -/

/-- C2: the escalation delay equals `min(baseMinutes * m, 30)` with `m` the
element of `[1, 1, 2, 3, 5, 6]` at index `min(attemptCount, 5)`; it is always
at most 30, is non-decreasing in the attempt count, and takes the four quoted
example values. -/
theorem next_delay_minutes_spec :
    (∀ c b, calculate_next_notification_interval c b =
      min (b * escalationMultipliers.getD (min c 5) 1) 30) ∧
    (∀ c b, calculate_next_notification_interval c b ≤ 30) ∧
    (∀ b c₁ c₂, c₁ ≤ c₂ →
      calculate_next_notification_interval c₁ b ≤
        calculate_next_notification_interval c₂ b) ∧
    calculate_next_notification_interval 0 5 = 5 ∧
    calculate_next_notification_interval 1 5 = 5 ∧
    calculate_next_notification_interval 3 5 = 15 ∧
    calculate_next_notification_interval 5 10 = 30 := by
  refine ⟨fun c b => ?_, fun c b => ?_, calculate_next_notification_interval_mono,
    by decide, by decide, by decide, by decide⟩
  · rfl
  · exact min_le_right _ _

/-- Witness for C2 at a concrete pair of attempt counts. -/
theorem next_delay_minutes_spec_witness :
    2 ≤ 4 ∧ calculate_next_notification_interval 2 5 ≤
      calculate_next_notification_interval 4 5 :=
  ⟨by decide, next_delay_minutes_spec.2.2.1 5 2 4 (by decide)⟩

/-- C8: a fire whose prompt send fails leaves the whole system state
unchanged — no count increment, no follow-up armed, no field mutated. -/
theorem send_failure_leaves_state_unchanged (now : Int) (msg : Nat)
    (st : SystemState) (rid : Nat) :
    send_reminder_job now false msg st rid = st := by
  unfold send_reminder_job
  cases h : getById st.reminders rid with
  | none => rfl
  | some e => by_cases he : e.status = ReminderStatus.active <;> simp [he]

/-- C9: confirm succeeds exactly when the reminder exists, the requester is
its owner, and its status is `Active`; any failing confirm leaves the state
untouched. -/
theorem confirm_authorization (tz now : Int) (st : SystemState) (rid uid : Nat) :
    ((confirm_reminder tz now st rid uid).2 = true ↔
      ∃ e, getById st.reminders rid = some e ∧ e.userId = uid ∧
        e.status = ReminderStatus.active) ∧
    ((confirm_reminder tz now st rid uid).2 = false →
      (confirm_reminder tz now st rid uid).1 = st) := by
  unfold confirm_reminder
  cases h : getById st.reminders rid with
  | none => simp
  | some e =>
    by_cases h1 : e.userId = uid
    · by_cases h2 : e.status = ReminderStatus.active
      · by_cases h3 : e.intervalDays = 0 <;> simp [h1, h2, h3]
      · simp [h1, h2]
    · simp [h1]

/-- Witness for C9: an owner confirm of an active reminder reports success,
and a non-owner confirm reports failure and changes nothing. -/
theorem confirm_authorization_witness :
    (confirm_reminder 0 100
      ⟨[{ id := 1, userId := 7, chatId := 7, text := "t", scheduleHH := 9,
          scheduleMM := 0, intervalDays := 0, status := ReminderStatus.active,
          nextNotification := 50, notificationCount := 2, maxNotifications := 10,
          notificationIntervalMinutes := 5, lastMessageId := none,
          createdAt := 0, updatedAt := 0 }], [], 0, 0⟩ 1 9).1 =
      ⟨[{ id := 1, userId := 7, chatId := 7, text := "t", scheduleHH := 9,
          scheduleMM := 0, intervalDays := 0, status := ReminderStatus.active,
          nextNotification := 50, notificationCount := 2, maxNotifications := 10,
          notificationIntervalMinutes := 5, lastMessageId := none,
          createdAt := 0, updatedAt := 0 }], [], 0, 0⟩ :=
  (confirm_authorization 0 100 _ 1 9).2 (by decide)

/-- Pointwise description of an id-targeted row update. -/
theorem forall₂_updateById (R : Reminder → Reminder → Prop) (rid : Nat)
    (f : Reminder → Reminder) (h1 : ∀ r, r.id = rid → R r (f r))
    (h2 : ∀ r, r.id ≠ rid → R r r) :
    ∀ l : List Reminder, List.Forall₂ R l (updateById l rid f)
  | [] => List.Forall₂.nil
  | a :: l => by
    have hrec := forall₂_updateById R rid f h1 h2 l
    by_cases h : a.id = rid
    · simpa [updateById, h] using List.Forall₂.cons (h1 a h) hrec
    · simpa [updateById, h] using List.Forall₂.cons (h2 a h) hrec

/-- C10: snooze stores `nextNotification = now + minutes` on the targeted
row and bumps only its `updatedAt`; every other field and every other row is
unchanged, the scheduler's job set is untouched (nothing cancelled, nothing
re-armed), and it reports success exactly when the reminder exists. -/
theorem snooze_frame (now : Int) (st : SystemState) (rid minutes : Nat) :
    ((snooze_reminder now st rid minutes).1.jobs = st.jobs) ∧
    ((snooze_reminder now st rid minutes).1.promptsDelivered = st.promptsDelivered) ∧
    ((snooze_reminder now st rid minutes).1.warningsDispatched = st.warningsDispatched) ∧
    ((snooze_reminder now st rid minutes).2 = true ↔ ∃ r ∈ st.reminders, r.id = rid) ∧
    List.Forall₂ (fun r r' : Reminder =>
        r'.id = r.id ∧ r'.userId = r.userId ∧ r'.chatId = r.chatId ∧
        r'.text = r.text ∧ r'.scheduleHH = r.scheduleHH ∧
        r'.scheduleMM = r.scheduleMM ∧ r'.intervalDays = r.intervalDays ∧
        r'.status = r.status ∧ r'.notificationCount = r.notificationCount ∧
        r'.maxNotifications = r.maxNotifications ∧
        r'.notificationIntervalMinutes = r.notificationIntervalMinutes ∧
        r'.lastMessageId = r.lastMessageId ∧ r'.createdAt = r.createdAt ∧
        (r.id = rid → r'.nextNotification = now + 60 * (minutes : Int) ∧
          r'.updatedAt = now) ∧
        (r.id ≠ rid → r' = r))
      st.reminders (snooze_reminder now st rid minutes).1.reminders := by
  refine ⟨rfl, rfl, rfl, ?_, ?_⟩
  · simp [snooze_reminder, update_next_notification, List.any_eq_true]
  · exact forall₂_updateById _ rid _ (fun r h => by simp [h]) (fun r h => by simp [h])
      st.reminders

/-- Witness for C10 on a one-row store. -/
theorem snooze_frame_witness :
    (snooze_reminder 100
      ⟨[{ id := 1, userId := 7, chatId := 7, text := "t", scheduleHH := 9,
          scheduleMM := 0, intervalDays := 1, status := ReminderStatus.active,
          nextNotification := 50, notificationCount := 2, maxNotifications := 10,
          notificationIntervalMinutes := 5, lastMessageId := some 4,
          createdAt := 0, updatedAt := 0 }],
        [{ key := JobKey.followUp 1 90, reminderId := 1, runDate := 90 }],
        0, 0⟩ 1 5).2 = true ∧
    (snooze_reminder 100
      ⟨[{ id := 1, userId := 7, chatId := 7, text := "t", scheduleHH := 9,
          scheduleMM := 0, intervalDays := 1, status := ReminderStatus.active,
          nextNotification := 50, notificationCount := 2, maxNotifications := 10,
          notificationIntervalMinutes := 5, lastMessageId := some 4,
          createdAt := 0, updatedAt := 0 }],
        [{ key := JobKey.followUp 1 90, reminderId := 1, runDate := 90 }],
        0, 0⟩ 1 5).1.jobs =
      [{ key := JobKey.followUp 1 90, reminderId := 1, runDate := 90 }] := by
  have h := snooze_frame 100
    ⟨[{ id := 1, userId := 7, chatId := 7, text := "t", scheduleHH := 9,
        scheduleMM := 0, intervalDays := 1, status := ReminderStatus.active,
        nextNotification := 50, notificationCount := 2, maxNotifications := 10,
        notificationIntervalMinutes := 5, lastMessageId := some 4,
        createdAt := 0, updatedAt := 0 }],
      [{ key := JobKey.followUp 1 90, reminderId := 1, runDate := 90 }],
      0, 0⟩ 1 5
  exact ⟨h.2.2.2.1.mpr
    ⟨{ id := 1, userId := 7, chatId := 7, text := "t", scheduleHH := 9,
       scheduleMM := 0, intervalDays := 1, status := ReminderStatus.active,
       nextNotification := 50, notificationCount := 2, maxNotifications := 10,
       notificationIntervalMinutes := 5, lastMessageId := some 4,
       createdAt := 0, updatedAt := 0 }, by decide, by decide⟩, h.1⟩

/-- C6 (amended): an owner delete removes the Reminder record and reports
success, but cancels no scheduler job — the job set, primary job included,
is exactly what it was; the leftover jobs later fire as no-ops because the
row is gone. -/
theorem delete_removes_record_keeps_jobs (st : SystemState) (rid uid : Nat)
    (e : Reminder) (h1 : getById st.reminders rid = some e)
    (h2 : e.userId = uid) :
    ((delete_reminder st rid uid).2 = true) ∧
    (getById (delete_reminder st rid uid).1.reminders rid = none) ∧
    ((delete_reminder st rid uid).1.jobs = st.jobs) ∧
    (∀ now ok m, send_reminder_job now ok m (delete_reminder st rid uid).1 rid =
      (delete_reminder st rid uid).1) := by
  have hres : delete_reminder st rid uid =
      ({ st with reminders := st.reminders.filter (fun r => !(r.id == rid)) }, true) := by
    simp [delete_reminder, h1, h2]
  refine ⟨by rw [hres], by rw [hres]; exact getById_filter_ne st.reminders rid,
    by rw [hres], ?_⟩
  intro now ok m
  exact send_reminder_job_of_missing now ok m _ rid
    (by rw [hres]; exact getById_filter_ne st.reminders rid)

/-- Witness for C6 at a concrete state. -/
theorem delete_removes_record_keeps_jobs_witness :
    (delete_reminder
      ⟨[{ id := 1, userId := 7, chatId := 7, text := "t", scheduleHH := 9,
          scheduleMM := 0, intervalDays := 1, status := ReminderStatus.active,
          nextNotification := 50, notificationCount := 0, maxNotifications := 10,
          notificationIntervalMinutes := 5, lastMessageId := none,
          createdAt := 0, updatedAt := 0 }],
        [{ key := JobKey.primary 1, reminderId := 1, runDate := 500 }], 0, 0⟩
      1 7).2 = true ∧
    (delete_reminder
      ⟨[{ id := 1, userId := 7, chatId := 7, text := "t", scheduleHH := 9,
          scheduleMM := 0, intervalDays := 1, status := ReminderStatus.active,
          nextNotification := 50, notificationCount := 0, maxNotifications := 10,
          notificationIntervalMinutes := 5, lastMessageId := none,
          createdAt := 0, updatedAt := 0 }],
        [{ key := JobKey.primary 1, reminderId := 1, runDate := 500 }], 0, 0⟩
      1 7).1.jobs =
      [{ key := JobKey.primary 1, reminderId := 1, runDate := 500 }] := by
  have h := delete_removes_record_keeps_jobs
    ⟨[{ id := 1, userId := 7, chatId := 7, text := "t", scheduleHH := 9,
        scheduleMM := 0, intervalDays := 1, status := ReminderStatus.active,
        nextNotification := 50, notificationCount := 0, maxNotifications := 10,
        notificationIntervalMinutes := 5, lastMessageId := none,
        createdAt := 0, updatedAt := 0 }],
      [{ key := JobKey.primary 1, reminderId := 1, runDate := 500 }], 0, 0⟩ 1 7
    { id := 1, userId := 7, chatId := 7, text := "t", scheduleHH := 9,
      scheduleMM := 0, intervalDays := 1, status := ReminderStatus.active,
      nextNotification := 50, notificationCount := 0, maxNotifications := 10,
      notificationIntervalMinutes := 5, lastMessageId := none,
      createdAt := 0, updatedAt := 0 } (by decide) (by decide)
  exact ⟨h.1, h.2.2.1⟩

/-- C6 counterexample: deleting reminder 1 (by its owner, successfully)
leaves both its primary job `reminder_1` and a follow-up job with key prefix
`notification_1_` armed, contradicting "afterwards neither the primary job
nor any follow-up job remains armed". -/
theorem delete_leaves_jobs_armed_counterexample :
    (fun res : SystemState × Bool =>
        res.2 = true ∧
        res.1.jobs.any (fun j => isFollowUpFor 1 j.key) = true ∧
        res.1.jobs.any (fun j => j.key == JobKey.primary 1) = true)
      (delete_reminder
        ⟨[{ id := 1, userId := 7, chatId := 7, text := "t", scheduleHH := 9,
            scheduleMM := 0, intervalDays := 1, status := ReminderStatus.active,
            nextNotification := 50, notificationCount := 3, maxNotifications := 10,
            notificationIntervalMinutes := 5, lastMessageId := some 4,
            createdAt := 0, updatedAt := 0 }],
          [{ key := JobKey.primary 1, reminderId := 1, runDate := 500 },
           { key := JobKey.followUp 1 700, reminderId := 1, runDate := 700 }],
          0, 0⟩ 1 7) := by decide

/-- C4 (amended): an owner confirm of an active one-time reminder
(`intervalDays = 0`) returns success and sets `status = Completed` regardless
of the prior `notificationCount`, but cancels no pending job: the job set is
unchanged, and the leftover jobs later fire as no-ops because the reminder is
no longer `Active`. -/
theorem confirm_one_time_completes (tz now : Int) (st : SystemState)
    (rid uid : Nat) (e : Reminder)
    (h1 : getById st.reminders rid = some e) (h2 : e.userId = uid)
    (h3 : e.status = ReminderStatus.active) (h4 : e.intervalDays = 0) :
    ((confirm_reminder tz now st rid uid).2 = true) ∧
    (getById (confirm_reminder tz now st rid uid).1.reminders rid =
      some { e with status := ReminderStatus.completed, updatedAt := now }) ∧
    ((confirm_reminder tz now st rid uid).1.jobs = st.jobs) ∧
    (∀ now' ok m,
      send_reminder_job now' ok m (confirm_reminder tz now st rid uid).1 rid =
        (confirm_reminder tz now st rid uid).1) := by
  have hres : confirm_reminder tz now st rid uid =
      ({ st with reminders := update_status st.reminders rid ReminderStatus.completed now },
        true) := by
    simp [confirm_reminder, h1, h2, h3, h4]
  have hget : getById (update_status st.reminders rid ReminderStatus.completed now) rid =
      some { e with status := ReminderStatus.completed, updatedAt := now } := by
    have hu := getById_updateById st.reminders rid
      (fun r => { r with status := ReminderStatus.completed, updatedAt := now })
      (fun r => rfl)
    rw [update_status, hu, h1]
    rfl
  refine ⟨by rw [hres], by rw [hres]; exact hget, by rw [hres], ?_⟩
  intro now' ok m
  exact send_reminder_job_of_not_active now' ok m _ rid _ (by rw [hres]; exact hget)
    (by simp)

/-- Witness for C4 at a concrete state. -/
theorem confirm_one_time_completes_witness :
    (confirm_reminder 0 100
      ⟨[{ id := 1, userId := 7, chatId := 7, text := "t", scheduleHH := 9,
          scheduleMM := 0, intervalDays := 0, status := ReminderStatus.active,
          nextNotification := 50, notificationCount := 9, maxNotifications := 10,
          notificationIntervalMinutes := 5, lastMessageId := some 4,
          createdAt := 0, updatedAt := 0 }], [], 0, 0⟩ 1 7).2 = true :=
  (confirm_one_time_completes 0 100
    ⟨[{ id := 1, userId := 7, chatId := 7, text := "t", scheduleHH := 9,
        scheduleMM := 0, intervalDays := 0, status := ReminderStatus.active,
        nextNotification := 50, notificationCount := 9, maxNotifications := 10,
        notificationIntervalMinutes := 5, lastMessageId := some 4,
        createdAt := 0, updatedAt := 0 }], [], 0, 0⟩ 1 7
    { id := 1, userId := 7, chatId := 7, text := "t", scheduleHH := 9,
      scheduleMM := 0, intervalDays := 0, status := ReminderStatus.active,
      nextNotification := 50, notificationCount := 9, maxNotifications := 10,
      notificationIntervalMinutes := 5, lastMessageId := some 4,
      createdAt := 0, updatedAt := 0 } (by decide) (by decide) (by decide)
    (by decide)).1

/-- C4 counterexample: confirming an active one-time reminder whose primary
and follow-up jobs are still armed succeeds and completes it, yet cancels
nothing — the follow-up job with key prefix `notification_1_` is still armed
afterwards, contradicting "cancels all of its pending jobs". -/
theorem confirm_one_time_counterexample :
    (fun res : SystemState × Bool =>
        res.2 = true ∧
        res.1.jobs.any (fun j => isFollowUpFor 1 j.key) = true ∧
        res.1.jobs.any (fun j => j.key == JobKey.primary 1) = true ∧
        (getById res.1.reminders 1).map Reminder.status =
          some ReminderStatus.completed)
      (confirm_reminder 0 100
        ⟨[{ id := 1, userId := 7, chatId := 7, text := "t", scheduleHH := 9,
            scheduleMM := 0, intervalDays := 0, status := ReminderStatus.active,
            nextNotification := 50, notificationCount := 3, maxNotifications := 10,
            notificationIntervalMinutes := 5, lastMessageId := some 4,
            createdAt := 0, updatedAt := 0 }],
          [{ key := JobKey.primary 1, reminderId := 1, runDate := 500 },
           { key := JobKey.followUp 1 700, reminderId := 1, runDate := 700 }],
          0, 0⟩ 1 7) := by decide

/-- The recomputed next-notification instant is always strictly in the
future: today's occurrence is kept only when still ahead, and otherwise at
least one whole day is added from a point at most a day behind now. -/
theorem calculate_next_notification_time_gt_now (tz now : Int) (hh mm iv : Nat) :
    now < calculate_next_notification_time tz now hh mm iv := by
  simp only [calculate_next_notification_time]
  split_ifs with hc hiv <;> omega

/-- The computed instant lands exactly on `HH:MM` local time. -/
theorem calculate_next_notification_time_emod (tz now : Int) (hh mm iv : Nat)
    (hhh : hh < 24) (hmm : mm < 60) :
    (calculate_next_notification_time tz now hh mm iv + tz) % 86400 =
      (hh : Int) * 3600 + (mm : Int) * 60 := by
  simp only [calculate_next_notification_time]
  split_ifs with hc hiv <;> omega

/-- Filtering out everything satisfying `r` leaves nothing satisfying `r`,
even after a further filter. -/
theorem any_filter_not (r : Job → Bool) (q : Job → Bool) :
    ∀ l : List Job, ((l.filter (fun j => !(r j))).filter q).any r = false
  | [] => rfl
  | a :: l => by
    by_cases h : r a
    · have hrec := any_filter_not r q l
      simp [List.filter_cons, h, hrec]
    · by_cases h2 : q a <;> simp [List.filter_cons, h, h2, any_filter_not r q l]

/-- After removing all follow-up jobs of a reminder and re-arming its
primary job, no follow-up job for it is armed. -/
theorem schedule_after_cancel_no_followups (jobs : List Job) (rid : Nat) (t : Int) :
    (schedule_reminder (cancel_followups jobs rid) rid t).any
      (fun j => isFollowUpFor rid j.key) = false := by
  simp only [schedule_reminder, cancel_followups, List.any_append]
  rw [any_filter_not]
  simp [isFollowUpFor]

/-- C3 (amended): recovery of an active reminder re-arms the primary job at
the stored time when that time is still in the future; re-arms it at
`now + 30` seconds when the overdue time truncated to whole minutes is at
most 60 (the code compares `int(overdue_seconds / 60) <= 60`, so an overdue
of up to 3659 seconds — 60 minutes 59 seconds, slightly past "at most 60
minutes" — is still caught up); skips the row, leaving the job set
unchanged, once the overdue reaches 3660 seconds; and a row whose recovery
fails is simply skipped, the remaining rows being processed exactly as if
the failing row were absent. -/
theorem recovery_policy (now : Int) (jobs : List Job) (r : Reminder) :
    (now < r.nextNotification →
      recover_one now jobs r = schedule_reminder jobs r.id r.nextNotification ∧
      ({ key := JobKey.primary r.id, reminderId := r.id,
         runDate := r.nextNotification } : Job) ∈ recover_one now jobs r) ∧
    (r.nextNotification ≤ now → now - r.nextNotification < 3660 →
      recover_one now jobs r = schedule_reminder jobs r.id (now + 30) ∧
      ({ key := JobKey.primary r.id, reminderId := r.id,
         runDate := now + 30 } : Job) ∈ recover_one now jobs r) ∧
    (3660 ≤ now - r.nextNotification → recover_one now jobs r = jobs) ∧
    (∀ (fails : Nat → Bool) (l₁ l₂ : List Reminder) (s : Reminder),
      fails s.id = true →
      recover_jobs_from_database now fails jobs (l₁ ++ s :: l₂) =
        recover_jobs_from_database now fails jobs (l₁ ++ l₂)) := by
  refine ⟨fun hc => ?_, fun hc hlt => ?_, fun hc => ?_, ?_⟩
  · rw [recover_one, if_pos hc]
    exact ⟨rfl, by simp [schedule_reminder]⟩
  · rw [recover_one, if_neg (by omega)]
    simp only [if_pos (show (now - r.nextNotification).toNat / 60 ≤ 60 by omega)]
    exact ⟨rfl, by simp [reschedule_reminder, schedule_reminder]⟩
  · rw [recover_one, if_neg (by omega)]
    simp only [if_neg (show ¬ (now - r.nextNotification).toNat / 60 ≤ 60 by omega)]
  · intro fails l₁ l₂ s hs
    simp only [recover_jobs_from_database, List.filter_append, List.foldl_append,
      List.filter_cons]
    by_cases hact : s.status == ReminderStatus.active
    · simp [hact, hs]
    · simp [hact]

/-- Witness for C3: a future row is re-armed at its stored time, and a row
overdue by 4000 seconds is skipped. -/
theorem recovery_policy_witness :
    ({ key := JobKey.primary 2, reminderId := 2, runDate := 12000 } : Job) ∈
      recover_one 10000 []
        { id := 2, userId := 7, chatId := 7, text := "t", scheduleHH := 9,
          scheduleMM := 0, intervalDays := 1, status := ReminderStatus.active,
          nextNotification := 12000, notificationCount := 0, maxNotifications := 10,
          notificationIntervalMinutes := 5, lastMessageId := none,
          createdAt := 0, updatedAt := 0 } ∧
    recover_one 10000 []
        { id := 3, userId := 7, chatId := 7, text := "t", scheduleHH := 9,
          scheduleMM := 0, intervalDays := 1, status := ReminderStatus.active,
          nextNotification := 6000, notificationCount := 0, maxNotifications := 10,
          notificationIntervalMinutes := 5, lastMessageId := none,
          createdAt := 0, updatedAt := 0 } = [] :=
  ⟨((recovery_policy 10000 []
      { id := 2, userId := 7, chatId := 7, text := "t", scheduleHH := 9,
        scheduleMM := 0, intervalDays := 1, status := ReminderStatus.active,
        nextNotification := 12000, notificationCount := 0, maxNotifications := 10,
        notificationIntervalMinutes := 5, lastMessageId := none,
        createdAt := 0, updatedAt := 0 }).1 (by decide)).2,
   (recovery_policy 10000 []
      { id := 3, userId := 7, chatId := 7, text := "t", scheduleHH := 9,
        scheduleMM := 0, intervalDays := 1, status := ReminderStatus.active,
        nextNotification := 6000, notificationCount := 0, maxNotifications := 10,
        notificationIntervalMinutes := 5, lastMessageId := none,
        createdAt := 0, updatedAt := 0 }).2.2.1 (by decide)⟩

/-- C3 counterexample: a reminder overdue by 3630 seconds (60.5 minutes, so
"more than 60 minutes") is nevertheless re-armed at `now + 30`, because the
code truncates the overdue duration to whole minutes before comparing with
60: the claim's "overdue by more than 60 minutes it is not re-armed" fails
between 3601 and 3659 seconds. -/
theorem recovery_overdue_counterexample :
    (fun r : Reminder =>
        3600 < 10000 - r.nextNotification ∧
        recover_one 10000 [] r =
          [{ key := JobKey.primary 1, reminderId := 1, runDate := 10030 }])
      { id := 1, userId := 7, chatId := 7, text := "t", scheduleHH := 9,
        scheduleMM := 0, intervalDays := 1, status := ReminderStatus.active,
        nextNotification := 6370, notificationCount := 0, maxNotifications := 10,
        notificationIntervalMinutes := 5, lastMessageId := none,
        createdAt := 0, updatedAt := 0 } := by decide

/-- C5 (amended): an owner confirm of an active recurring reminder resets
`notificationCount` to 0, clears `lastMessageId`, and stores a recomputed
`nextNotification` that is strictly in the future (greater than now); it is
therefore strictly greater than the previous `nextNotification` whenever
that value was not in the future (the normal case, the reminder having
fired), though not in general.  All follow-up jobs are removed and the
primary job is re-armed at the new time. -/
theorem confirm_recurring_resets (tz now : Int) (st : SystemState)
    (rid uid : Nat) (e : Reminder)
    (h1 : getById st.reminders rid = some e) (h2 : e.userId = uid)
    (h3 : e.status = ReminderStatus.active) (h4 : 0 < e.intervalDays) :
    ((confirm_reminder tz now st rid uid).2 = true) ∧
    (getById (confirm_reminder tz now st rid uid).1.reminders rid =
      some { e with notificationCount := 0,
                    nextNotification := calculate_next_notification_time tz now
                      e.scheduleHH e.scheduleMM e.intervalDays,
                    lastMessageId := none, updatedAt := now }) ∧
    (now < calculate_next_notification_time tz now e.scheduleHH e.scheduleMM
      e.intervalDays) ∧
    (e.nextNotification ≤ now →
      e.nextNotification < calculate_next_notification_time tz now e.scheduleHH
        e.scheduleMM e.intervalDays) ∧
    ((confirm_reminder tz now st rid uid).1.jobs.any
      (fun j => isFollowUpFor rid j.key) = false) ∧
    (({ key := JobKey.primary rid, reminderId := rid,
        runDate := calculate_next_notification_time tz now e.scheduleHH
          e.scheduleMM e.intervalDays } : Job) ∈
      (confirm_reminder tz now st rid uid).1.jobs) := by
  have hiv : ¬ e.intervalDays = 0 := by omega
  have hres : confirm_reminder tz now st rid uid =
      ({ st with
          reminders := updateById st.reminders rid (fun r =>
            { r with
                notificationCount := 0,
                nextNotification := calculate_next_notification_time tz now
                  e.scheduleHH e.scheduleMM e.intervalDays,
                lastMessageId := none, updatedAt := now }),
          jobs := schedule_reminder
            (cancel_followups (cancel_reminder st.jobs rid).1 rid) rid
            (calculate_next_notification_time tz now e.scheduleHH e.scheduleMM
              e.intervalDays) }, true) := by
    simp [confirm_reminder, h1, h2, h3, hiv]
  refine ⟨by rw [hres], ?_,
    calculate_next_notification_time_gt_now tz now _ _ _,
    fun hprev => lt_of_le_of_lt hprev
      (calculate_next_notification_time_gt_now tz now _ _ _), ?_, ?_⟩
  · rw [hres]
    have hu := getById_updateById st.reminders rid (fun r =>
      { r with notificationCount := 0,
               nextNotification := calculate_next_notification_time tz now
                 e.scheduleHH e.scheduleMM e.intervalDays,
               lastMessageId := none, updatedAt := now }) (fun r => rfl)
    simp only [hu, h1]
    rfl
  · rw [hres]
    exact schedule_after_cancel_no_followups (cancel_reminder st.jobs rid).1 rid _
  · rw [hres]
    simp [schedule_reminder]

/-- Witness for C5: after a fire (stored time in the past), an owner confirm
stores a strictly larger next time. -/
theorem confirm_recurring_resets_witness :
    (confirm_reminder 0 52500
      ⟨[{ id := 1, userId := 7, chatId := 7, text := "t", scheduleHH := 14,
          scheduleMM := 30, intervalDays := 7, status := ReminderStatus.active,
          nextNotification := 52000, notificationCount := 4, maxNotifications := 10,
          notificationIntervalMinutes := 5, lastMessageId := some 4,
          createdAt := 0, updatedAt := 0 }], [], 0, 0⟩ 1 7).2 = true ∧
    (52000 : Int) < calculate_next_notification_time 0 52500 14 30 7 := by
  have h := confirm_recurring_resets 0 52500
    ⟨[{ id := 1, userId := 7, chatId := 7, text := "t", scheduleHH := 14,
        scheduleMM := 30, intervalDays := 7, status := ReminderStatus.active,
        nextNotification := 52000, notificationCount := 4, maxNotifications := 10,
        notificationIntervalMinutes := 5, lastMessageId := some 4,
        createdAt := 0, updatedAt := 0 }], [], 0, 0⟩ 1 7
    { id := 1, userId := 7, chatId := 7, text := "t", scheduleHH := 14,
      scheduleMM := 30, intervalDays := 7, status := ReminderStatus.active,
      nextNotification := 52000, notificationCount := 4, maxNotifications := 10,
      notificationIntervalMinutes := 5, lastMessageId := some 4,
      createdAt := 0, updatedAt := 0 } (by decide) (by decide) (by decide) (by decide)
  exact ⟨h.1, h.2.2.2.1 (by decide)⟩

/-- C5 counterexample: an owner confirm of an active recurring reminder
whose stored `nextNotification` (14:33, e.g. freshly snoozed) lies past the
upcoming schedule occurrence (14:30, with now = 14:29) succeeds but stores a
new `nextNotification` (14:30, i.e. 52200) strictly SMALLER than the
previous one (52380), refuting "strictly greater than the previous
`nextNotification`". -/
theorem confirm_strict_increase_counterexample :
    (fun res : SystemState × Bool =>
        res.2 = true ∧
        (getById res.1.reminders 1).map Reminder.nextNotification =
          some 52200 ∧
        (52200 : Int) < 52380)
      (confirm_reminder 0 52140
        ⟨[{ id := 1, userId := 7, chatId := 7, text := "t", scheduleHH := 14,
            scheduleMM := 30, intervalDays := 7, status := ReminderStatus.active,
            nextNotification := 52380, notificationCount := 1, maxNotifications := 10,
            notificationIntervalMinutes := 5, lastMessageId := some 4,
            createdAt := 0, updatedAt := 0 }], [], 0, 0⟩ 1 7) := by decide

/-- C7 (amended): creation yields `status = Active`, `notificationCount = 0`,
and a `nextNotification` strictly in the future that lands exactly on
`HH:MM` local time; it is today's occurrence when that is still strictly
ahead of now, and otherwise the occurrence `max(intervalDays, 1)` days
later — not the occurrence on the nearest day ≥ now when `intervalDays > 1`
and today's occurrence has passed. -/
theorem create_reminder_fields (tz now : Int) (rid : Nat) (d : ReminderCreate)
    (hv : d.valid) :
    ((create_reminder tz now rid d).status = ReminderStatus.active) ∧
    ((create_reminder tz now rid d).notificationCount = 0) ∧
    (now < (create_reminder tz now rid d).nextNotification) ∧
    (((create_reminder tz now rid d).nextNotification + tz) % 86400 =
      (d.scheduleHH : Int) * 3600 + (d.scheduleMM : Int) * 60) ∧
    (now + tz < now + tz - (now + tz) % 86400 +
        ((d.scheduleHH : Int) * 3600 + (d.scheduleMM : Int) * 60) →
      (create_reminder tz now rid d).nextNotification =
        now + tz - (now + tz) % 86400 +
          ((d.scheduleHH : Int) * 3600 + (d.scheduleMM : Int) * 60) - tz) ∧
    (now + tz - (now + tz) % 86400 +
        ((d.scheduleHH : Int) * 3600 + (d.scheduleMM : Int) * 60) ≤ now + tz →
      (create_reminder tz now rid d).nextNotification =
        now + tz - (now + tz) % 86400 +
          ((d.scheduleHH : Int) * 3600 + (d.scheduleMM : Int) * 60) +
          86400 * (max 1 (d.intervalDays : Int)) - tz) := by
  obtain ⟨hhh, hmm, -⟩ := hv
  refine ⟨rfl, rfl, calculate_next_notification_time_gt_now tz now _ _ _,
    calculate_next_notification_time_emod tz now _ _ _ hhh hmm, ?_, ?_⟩
  · intro hc
    show calculate_next_notification_time tz now d.scheduleHH d.scheduleMM
      d.intervalDays = _
    simp only [calculate_next_notification_time]
    rw [if_neg (by omega)]
  · intro hc
    show calculate_next_notification_time tz now d.scheduleHH d.scheduleMM
      d.intervalDays = _
    simp only [calculate_next_notification_time]
    rw [if_pos hc]
    split_ifs with hiv <;> omega

/-- Witness for C7: a valid creation input at a concrete now. -/
theorem create_reminder_fields_witness :
    (create_reminder 0 54000 1
      { userId := 7, chatId := 7, text := "Take medicine", scheduleHH := 14,
        scheduleMM := 30, intervalDays := 7, notificationIntervalMinutes := 5,
        maxNotifications := 10 }).status = ReminderStatus.active ∧
    (create_reminder 0 54000 1
      { userId := 7, chatId := 7, text := "Take medicine", scheduleHH := 14,
        scheduleMM := 30, intervalDays := 7, notificationIntervalMinutes := 5,
        maxNotifications := 10 }).nextNotification =
      54000 - 54000 % 86400 + (14 * 3600 + 30 * 60) + 86400 * 7 := by
  have h := create_reminder_fields 0 54000 1
    { userId := 7, chatId := 7, text := "Take medicine", scheduleHH := 14,
      scheduleMM := 30, intervalDays := 7, notificationIntervalMinutes := 5,
      maxNotifications := 10 } (by decide)
  refine ⟨h.1, ?_⟩
  have h6 := h.2.2.2.2.2 (by decide)
  rw [h6]
  decide

/-- C7 counterexample: with `scheduleTime = 14:30`, `intervalDays = 7` and
now = 15:00 (54000 s), the code stores the occurrence seven days out
(657000), not the occurrence on the nearest day ≥ now (tomorrow, 138600):
"nextNotification at 14:30 local on the nearest day ≥ now" fails whenever
today's occurrence has passed and `intervalDays > 1`. -/
theorem create_reminder_nearest_day_counterexample :
    (create_reminder 0 54000 1
      { userId := 7, chatId := 7, text := "Take medicine", scheduleHH := 14,
        scheduleMM := 30, intervalDays := 7, notificationIntervalMinutes := 5,
        maxNotifications := 10 }).nextNotification = 657000 ∧
    earliestOccurrenceUtc 0 54000 14 30 = 138600 ∧
    (create_reminder 0 54000 1
      { userId := 7, chatId := 7, text := "Take medicine", scheduleHH := 14,
        scheduleMM := 30, intervalDays := 7, notificationIntervalMinutes := 5,
        maxNotifications := 10 }).nextNotification ≠
      earliestOccurrenceUtc 0 54000 14 30 := by decide

/-- One successful fire of the sole reminder in the follow-up regime
(pre-increment count below `max - 1`): message id stored, count incremented,
one follow-up armed at `now` plus the escalation delay, one more prompt
delivered, no warning. -/
theorem send_reminder_job_step_followUp (now : Int) (msg rid : Nat)
    (r : Reminder) (jobs : List Job) (p w : Nat)
    (hid : r.id = rid) (hact : r.status = ReminderStatus.active)
    (hlt : r.notificationCount < r.maxNotifications - 1) :
    send_reminder_job now true msg ⟨[r], jobs, p, w⟩ rid =
      ⟨[{ r with lastMessageId := some msg,
                 notificationCount := r.notificationCount + 1, updatedAt := now }],
        schedule_next_notification jobs rid
          (now + 60 * (calculate_next_notification_interval r.notificationCount
            r.notificationIntervalMinutes : Int)),
        p + 1, w⟩ := by
  have hfind : getById [r] rid = some r := by simp [getById, hid]
  simp [send_reminder_job, hfind, hact, hlt, update_message_id,
    increment_notification_count, updateById, hid]

/-- One successful fire of the sole reminder at the attempt ceiling
(pre-increment count at least `max - 1`): message id stored, count
incremented, status set to `Suspended`, no follow-up armed, one more prompt
delivered and exactly one escalation warning dispatched. -/
theorem send_reminder_job_step_suspend (now : Int) (msg rid : Nat)
    (r : Reminder) (jobs : List Job) (p w : Nat)
    (hid : r.id = rid) (hact : r.status = ReminderStatus.active)
    (hge : ¬ r.notificationCount < r.maxNotifications - 1) :
    send_reminder_job now true msg ⟨[r], jobs, p, w⟩ rid =
      ⟨[{ r with lastMessageId := some msg,
                 notificationCount := r.notificationCount + 1,
                 status := ReminderStatus.suspended, updatedAt := now }],
        jobs, p + 1, w + 1⟩ := by
  have hfind : getById [r] rid = some r := by simp [getById, hid]
  simp [send_reminder_job, hfind, hact, hge, update_message_id,
    increment_notification_count, update_status, updateById, hid]

/-- The unconfirmed-fire invariant: after `k ≤ max - 1` successful fires
(the `i`-th at time `t0 + i`) the sole reminder is still active with count
`k`, exactly `k` prompts delivered, no warning dispatched, and exactly `k`
follow-up jobs armed, each stamped with its fire time plus the then-current
escalation delay. -/
theorem fireN_invariant (t0 : Int) (msg rid : Nat) (r0 : Reminder)
    (jobs0 : List Job) (hid : r0.id = rid)
    (hact : r0.status = ReminderStatus.active) (hcnt : r0.notificationCount = 0)
    (hj : ∀ j ∈ jobs0, isFollowUpFor rid j.key = false) :
    ∀ k, k ≤ r0.maxNotifications - 1 →
      ∃ (rk : Reminder) (jk : List Job),
        fireN t0 msg rid k ⟨[r0], jobs0, 0, 0⟩ = ⟨[rk], jk, k, 0⟩ ∧
        rk.id = rid ∧ rk.status = ReminderStatus.active ∧
        rk.notificationCount = k ∧
        rk.maxNotifications = r0.maxNotifications ∧
        rk.notificationIntervalMinutes = r0.notificationIntervalMinutes ∧
        (jk.filter (fun j => isFollowUpFor rid j.key)).length = k ∧
        (∀ j ∈ jk, ∀ ts : Int, j.key = JobKey.followUp rid ts →
          ∃ i : Nat, i < k ∧ ts = t0 + (i : Int) + 60 *
            (calculate_next_notification_interval i
              r0.notificationIntervalMinutes : Int)) := by
  intro k
  induction k with
  | zero =>
    intro _
    refine ⟨r0, jobs0, rfl, hid, hact, hcnt, rfl, rfl, ?_, ?_⟩
    · rw [List.filter_eq_nil_iff.mpr]
      · rfl
      · intro j hjm
        simp [hj j hjm]
    · intro j hjm ts hts
      have h1 : isFollowUpFor rid j.key = true := by simp [hts, isFollowUpFor]
      rw [hj j hjm] at h1
      exact absurd h1 (by simp)
  | succ k ih =>
    intro hk
    obtain ⟨rk, jk, heq, hkid, hkact, hkcnt, hkmax, hkbase, hlen, hts⟩ :=
      ih (by omega)
    have hlt : rk.notificationCount < rk.maxNotifications - 1 := by omega
    have hfresh : jk.any (fun j => j.key ==
        JobKey.followUp rid (t0 + (k : Int) + 60 *
          (calculate_next_notification_interval k
            r0.notificationIntervalMinutes : Int))) = false := by
      by_contra hcon
      rw [Bool.not_eq_false, List.any_eq_true] at hcon
      obtain ⟨j, hjm, hjk⟩ := hcon
      rw [beq_iff_eq] at hjk
      obtain ⟨i, hik, hi⟩ := hts j hjm _ hjk
      have hmono := calculate_next_notification_interval_mono
        r0.notificationIntervalMinutes i k (by omega)
      omega
    refine ⟨{ rk with
              lastMessageId := some msg,
              notificationCount := rk.notificationCount + 1,
              updatedAt := t0 + (k : Int) },
      jk ++ [{ key := JobKey.followUp rid (t0 + (k : Int) + 60 *
                 (calculate_next_notification_interval k
                   r0.notificationIntervalMinutes : Int)),
               reminderId := rid,
               runDate := t0 + (k : Int) + 60 *
                 (calculate_next_notification_interval k
                   r0.notificationIntervalMinutes : Int) }], ?_, hkid, hkact, ?_,
      hkmax, hkbase, ?_, ?_⟩
    · show send_reminder_job (t0 + (k : Int)) true msg
        (fireN t0 msg rid k ⟨[r0], jobs0, 0, 0⟩) rid = _
      rw [heq, send_reminder_job_step_followUp (t0 + (k : Int)) msg rid rk jk k 0
        hkid hkact hlt]
      rw [schedule_next_notification, if_neg]
      · rw [hkcnt, hkbase]
      · rw [hkcnt, hkbase, hfresh]
        simp
    · simp [hkcnt]
    · rw [List.filter_append, List.length_append, hlen]
      simp [isFollowUpFor]
    · intro j hjm ts hjk
      rcases List.mem_append.mp hjm with hold | hnew
      · obtain ⟨i, hik, hi⟩ := hts j hold ts hjk
        exact ⟨i, by omega, hi⟩
      · rw [List.mem_singleton] at hnew
        rw [hnew] at hjk
        simp only [JobKey.followUp.injEq] at hjk
        exact ⟨k, by omega, hjk.2.symm⟩

/-- From the `max`-th successful fire on (stale follow-ups may keep firing),
the sole reminder is suspended with count `max`, the job set frozen, `max`
prompts delivered in total and exactly one escalation warning dispatched. -/
theorem fireN_suspended (t0 : Int) (msg rid : Nat) (r0 : Reminder)
    (jobs0 : List Job) (hid : r0.id = rid)
    (hact : r0.status = ReminderStatus.active) (hcnt : r0.notificationCount = 0)
    (hM : 1 ≤ r0.maxNotifications)
    (hj : ∀ j ∈ jobs0, isFollowUpFor rid j.key = false) :
    ∀ n, r0.maxNotifications ≤ n →
      ∃ (rn : Reminder) (jn : List Job),
        fireN t0 msg rid n ⟨[r0], jobs0, 0, 0⟩ =
          ⟨[rn], jn, r0.maxNotifications, 1⟩ ∧
        rn.id = rid ∧ rn.status = ReminderStatus.suspended ∧
        rn.notificationCount = r0.maxNotifications := by
  obtain ⟨rk, jk, heq, hkid, hkact, hkcnt, hkmax, hkbase, hlen, hts⟩ :=
    fireN_invariant t0 msg rid r0 jobs0 hid hact hcnt hj
      (r0.maxNotifications - 1) le_rfl
  have hge : ¬ rk.notificationCount < rk.maxNotifications - 1 := by omega
  have hstepM := send_reminder_job_step_suspend
    (t0 + ((r0.maxNotifications - 1 : Nat) : Int)) msg rid rk jk
    (r0.maxNotifications - 1) 0 hkid hkact hge
  have hbase : ∀ j : Nat, ∃ rn : Reminder,
      fireN t0 msg rid (r0.maxNotifications + j) ⟨[r0], jobs0, 0, 0⟩ =
        ⟨[rn], jk, r0.maxNotifications, 1⟩ ∧
      rn.id = rid ∧ rn.status = ReminderStatus.suspended ∧
      rn.notificationCount = r0.maxNotifications := by
    intro j
    induction j with
    | zero =>
      refine ⟨{ rk with
                lastMessageId := some msg,
                notificationCount := rk.notificationCount + 1,
                status := ReminderStatus.suspended,
                updatedAt := t0 + ((r0.maxNotifications - 1 : Nat) : Int) },
        ?_, hkid, rfl, ?_⟩
      · have hn : r0.maxNotifications + 0 = (r0.maxNotifications - 1) + 1 := by
          omega
        rw [hn]
        show send_reminder_job (t0 + ((r0.maxNotifications - 1 : Nat) : Int))
          true msg (fireN t0 msg rid (r0.maxNotifications - 1)
            ⟨[r0], jobs0, 0, 0⟩) rid = _
        rw [heq, hstepM]
        rw [show r0.maxNotifications - 1 + 1 = r0.maxNotifications from by omega]
      · show rk.notificationCount + 1 = r0.maxNotifications
        omega
    | succ j ihj =>
      obtain ⟨rn, heqn, hnid, hnstat, hncnt⟩ := ihj
      refine ⟨rn, ?_, hnid, hnstat, hncnt⟩
      have hn : r0.maxNotifications + (j + 1) = (r0.maxNotifications + j) + 1 := by
        omega
      rw [hn]
      show send_reminder_job (t0 + ((r0.maxNotifications + j : Nat) : Int))
        true msg (fireN t0 msg rid (r0.maxNotifications + j)
          ⟨[r0], jobs0, 0, 0⟩) rid = _
      rw [heqn]
      exact send_reminder_job_of_not_active _ _ _ _ _ rn
        (by simp [getById, hnid]) (by rw [hnstat]; simp)
  intro n hn
  obtain ⟨rn, heqn, hnid, hnstat, hncnt⟩ := hbase (n - r0.maxNotifications)
  rw [show n = r0.maxNotifications + (n - r0.maxNotifications) from by omega]
  exact ⟨rn, jk, heqn, hnid, hnstat, hncnt⟩

/-- C1: firing an active reminder repeatedly without confirmation, every
prompt send succeeding: while fewer than `maxNotifications` fires have
happened the reminder stays `Active`, each successful dispatch having
incremented `notificationCount` by one, armed exactly one more follow-up
job, and dispatched no escalation warning; from the `maxNotifications`-th
successful dispatch on the status is `Suspended`, exactly
`maxNotifications` prompts were delivered in total, and exactly one
escalation warning was dispatched. -/
theorem fire_escalation_run (t0 : Int) (msg rid : Nat) (r0 : Reminder)
    (jobs0 : List Job) (hid : r0.id = rid)
    (hact : r0.status = ReminderStatus.active) (hcnt : r0.notificationCount = 0)
    (hM : 1 ≤ r0.maxNotifications)
    (hj : ∀ j ∈ jobs0, isFollowUpFor rid j.key = false) :
    (∀ k, k < r0.maxNotifications →
      ∃ rk : Reminder,
        (fireN t0 msg rid k ⟨[r0], jobs0, 0, 0⟩).reminders = [rk] ∧
        rk.status = ReminderStatus.active ∧ rk.notificationCount = k ∧
        (fireN t0 msg rid k ⟨[r0], jobs0, 0, 0⟩).promptsDelivered = k ∧
        (fireN t0 msg rid k ⟨[r0], jobs0, 0, 0⟩).warningsDispatched = 0 ∧
        ((fireN t0 msg rid k ⟨[r0], jobs0, 0, 0⟩).jobs.filter
          (fun j => isFollowUpFor rid j.key)).length = k) ∧
    (∀ n, r0.maxNotifications ≤ n →
      ∃ rn : Reminder,
        (fireN t0 msg rid n ⟨[r0], jobs0, 0, 0⟩).reminders = [rn] ∧
        rn.status = ReminderStatus.suspended ∧
        rn.notificationCount = r0.maxNotifications ∧
        (fireN t0 msg rid n ⟨[r0], jobs0, 0, 0⟩).promptsDelivered =
          r0.maxNotifications ∧
        (fireN t0 msg rid n ⟨[r0], jobs0, 0, 0⟩).warningsDispatched = 1) := by
  constructor
  · intro k hk
    obtain ⟨rk, jk, heq, _, hkact, hkcnt, _, _, hlen, _⟩ :=
      fireN_invariant t0 msg rid r0 jobs0 hid hact hcnt hj k (by omega)
    exact ⟨rk, by rw [heq], hkact, hkcnt, by rw [heq], by rw [heq],
      by rw [heq]; exact hlen⟩
  · intro n hn
    obtain ⟨rn, jn, heqn, _, hnstat, hncnt⟩ :=
      fireN_suspended t0 msg rid r0 jobs0 hid hact hcnt hM hj n hn
    exact ⟨rn, by rw [heqn], hnstat, hncnt, by rw [heqn], by rw [heqn]⟩

/-- Witness for C1: a reminder with `maxNotifications = 2` fired twice is
suspended with two prompts delivered and one escalation warning. -/
theorem fire_escalation_run_witness :
    (fireN 0 9 1 2
      ⟨[{ id := 1, userId := 7, chatId := 7, text := "t", scheduleHH := 9,
          scheduleMM := 0, intervalDays := 1, status := ReminderStatus.active,
          nextNotification := 50, notificationCount := 0, maxNotifications := 2,
          notificationIntervalMinutes := 5, lastMessageId := none,
          createdAt := 0, updatedAt := 0 }], [], 0, 0⟩).promptsDelivered = 2 ∧
    (fireN 0 9 1 2
      ⟨[{ id := 1, userId := 7, chatId := 7, text := "t", scheduleHH := 9,
          scheduleMM := 0, intervalDays := 1, status := ReminderStatus.active,
          nextNotification := 50, notificationCount := 0, maxNotifications := 2,
          notificationIntervalMinutes := 5, lastMessageId := none,
          createdAt := 0, updatedAt := 0 }], [], 0, 0⟩).warningsDispatched = 1 := by
  have h := (fire_escalation_run 0 9 1
    { id := 1, userId := 7, chatId := 7, text := "t", scheduleHH := 9,
      scheduleMM := 0, intervalDays := 1, status := ReminderStatus.active,
      nextNotification := 50, notificationCount := 0, maxNotifications := 2,
      notificationIntervalMinutes := 5, lastMessageId := none,
      createdAt := 0, updatedAt := 0 } [] (by decide) (by decide) (by decide)
    (by decide) (by simp)).2 2 (by decide)
  obtain ⟨rn, -, -, -, hp, hw⟩ := h
  exact ⟨hp, hw⟩

end ReminderBot
